import Mathlib

/-!
Shallow embedding of the FaceOn retargeting core (src/app.js, the module
whose `startApp` entry point is exported; line references below are into
that module).  Detector scores and matrix entries are modelled as rationals;
a 4x4 matrix is its column-major 16-element `elements` list, exactly as
THREE.Matrix4 stores it.  Per-frame detector invocation is modelled as an
`Except` input: `Except.error` is the call throwing, `Except.ok` a returned
result.  The diagnostic `log` calls touch no pipeline state and are modelled
as no-ops.
-/

namespace FaceOn

/-- One morph-target-bearing mesh: `morphTargetDictionary` (blend-shape name
to slot index, a JS object modelled as an association list) and
`morphTargetInfluences` (the per-slot weight array). -/
structure Mesh where
  morphTargetDictionary : List (String × Nat)
  morphTargetInfluences : List ℚ
deriving DecidableEq

/-- Lookup in a `morphTargetDictionary`: the JS `name in obj` test together
with `obj[name]`. -/
def dictLookup : List (String × Nat) → String → Option Nat
  | [], _ => none
  | p :: rest, name => if p.1 = name then some p.2 else dictLookup rest name

/-- Coefficient resolution exactly as `Avatar.updateBlendshapes` performs it
per mesh: `if (!(name in mesh.morphTargetDictionary)) continue;` followed by
`mesh.morphTargetDictionary[name]` — a verbatim dictionary lookup
(src/app.js lines 435-437). -/
def resolveCoefficient (dict : List (String × Nat)) (name : String) : Option Nat :=
  dictLookup dict name

/-- Alias table of the source.  The code consults no alias table anywhere in
its resolution path, so every coefficient name's alias list is empty. -/
def aliasTable : String → List String := fun _ => []

/-- First alias of the given list present in the vocabulary (spec section
4.1, step 2). -/
def firstAliasSlot (dict : List (String × Nat)) : List String → Option Nat
  | [] => none
  | al :: rest =>
    match dictLookup dict al with
    | some i => some i
    | none => firstAliasSlot dict rest

/-- Spec-side resolver, stated from the spec's words (section 4.1): verbatim
match first, then the alias list in order, else unresolved.  Parametric in
the alias table; compared with the source's `resolveCoefficient`. -/
def specResolveCoefficient (aliases : String → List String)
    (dict : List (String × Nat)) (name : String) : Option Nat :=
  match dictLookup dict name with
  | some i => some i
  | none => firstAliasSlot dict (aliases name)

/-- The inner loop of `updateBlendshapes` (src/app.js lines 435-438): for
each reported (name, value) in report order, if the name is in the
dictionary, write the value at its slot; otherwise skip it. -/
def writeShapes (dict : List (String × Nat)) : List ℚ → List (String × ℚ) → List ℚ
  | infl, [] => infl
  | infl, p :: rest =>
    match dictLookup dict p.1 with
    | some i => writeShapes dict (infl.set i p.2) rest
    | none => writeShapes dict infl rest

/-- Effect of one frame's blendshape map on one mesh (the body of the outer
loop of `updateBlendshapes`, src/app.js lines 433-439). -/
def Mesh.update (m : Mesh) (blendshapes : List (String × ℚ)) : Mesh :=
  { m with morphTargetInfluences :=
      writeShapes m.morphTargetDictionary m.morphTargetInfluences blendshapes }

/-- Column-major identity, THREE.Matrix4's default `elements`. -/
def mat4id : List ℚ := [1, 0, 0, 0, 0, 1, 0, 0, 0, 0, 1, 0, 0, 0, 0, 1]

/-- THREE.Matrix4.scale(v), unrolled exactly as THREE writes it: elements
0-3 are multiplied by x, 4-7 by y, 8-11 by z, and the translation column
12-15 is untouched.  (A list that is not a 4x4 element array is returned
unchanged; THREE matrices always carry 16 elements.) -/
def mat4scale (m : List ℚ) (x y z : ℚ) : List ℚ :=
  match m with
  | [e0, e1, e2, e3, e4, e5, e6, e7, e8, e9, e10, e11, e12, e13, e14, e15] =>
      [e0 * x, e1 * x, e2 * x, e3 * x,
       e4 * y, e5 * y, e6 * y, e7 * y,
       e8 * z, e9 * z, e10 * z, e11 * z,
       e12, e13, e14, e15]
  | other => other

/-- Entry at row r, column c of a column-major 16-element matrix. -/
def mat4get (m : List ℚ) (r c : Nat) : ℚ := m.getD (4 * c + r) 0

/-- Column-major pure uniform scale matrix diag(s, s, s, 1). -/
def scaleDiag (s : ℚ) : List ℚ :=
  [s, 0, 0, 0, 0, s, 0, 0, 0, 0, s, 0, 0, 0, 0, 1]

/-- Column-major 4x4 matrix product, THREE.Matrix4.multiplyMatrices
unrolled: entry (r, c) of the product is the sum over k of
a[4k + r] * b[4c + k]. -/
def mat4mul (a b : List ℚ) : List ℚ :=
  match a, b with
  | [a0, a1, a2, a3, a4, a5, a6, a7, a8, a9, a10, a11, a12, a13, a14, a15],
    [b0, b1, b2, b3, b4, b5, b6, b7, b8, b9, b10, b11, b12, b13, b14, b15] =>
      [a0 * b0 + a4 * b1 + a8 * b2 + a12 * b3,
       a1 * b0 + a5 * b1 + a9 * b2 + a13 * b3,
       a2 * b0 + a6 * b1 + a10 * b2 + a14 * b3,
       a3 * b0 + a7 * b1 + a11 * b2 + a15 * b3,
       a0 * b4 + a4 * b5 + a8 * b6 + a12 * b7,
       a1 * b4 + a5 * b5 + a9 * b6 + a13 * b7,
       a2 * b4 + a6 * b5 + a10 * b6 + a14 * b7,
       a3 * b4 + a7 * b5 + a11 * b6 + a15 * b7,
       a0 * b8 + a4 * b9 + a8 * b10 + a12 * b11,
       a1 * b8 + a5 * b9 + a9 * b10 + a13 * b11,
       a2 * b8 + a6 * b9 + a10 * b10 + a14 * b11,
       a3 * b8 + a7 * b9 + a11 * b10 + a15 * b11,
       a0 * b12 + a4 * b13 + a8 * b14 + a12 * b15,
       a1 * b12 + a5 * b13 + a9 * b14 + a13 * b15,
       a2 * b12 + a6 * b13 + a10 * b14 + a14 * b15,
       a3 * b12 + a7 * b13 + a11 * b14 + a15 * b15]
  | _, _ => []

/-- The loaded `gltf.scene` root node as the core touches it: its identity
in the render graph (`sceneId`), its `matrix`, and its `matrixAutoUpdate`
flag. -/
structure Gltf where
  sceneId : Nat
  matrix : List ℚ
  matrixAutoUpdate : Bool
deriving DecidableEq

/-- The `Avatar` class instance state the retargeting core reads and writes:
`gltf` (null until the asynchronous load completes) and
`morphTargetMeshes`.  The url/loader fields are loading glue and carry no
per-frame semantics. -/
structure Avatar where
  gltf : Option Gltf
  morphTargetMeshes : List Mesh
deriving DecidableEq

/-- `Avatar.updateBlendshapes` (src/app.js lines 432-440): applies the
frame's blendshape map to every collected mesh.  The per-mesh null guard on
dictionary/influences is always false here because `init` only collects
meshes that have both. -/
def Avatar.updateBlendshapes (a : Avatar) (blendshapes : List (String × ℚ)) : Avatar :=
  { a with morphTargetMeshes := a.morphTargetMeshes.map fun m => Mesh.update m blendshapes }

/-- `Avatar.applyMatrix` (src/app.js lines 442-449): no-op while `gltf` is
null; otherwise clones the incoming matrix, post-multiplies the uniform
scale (`m.scale(new THREE.Vector3(scale, scale, scale))`), disables
`matrixAutoUpdate` on the root and copies the result into the root's
matrix wholesale. -/
def Avatar.applyMatrix (a : Avatar) (matrix : List ℚ) (scale : ℚ) : Avatar :=
  match a.gltf with
  | none => a
  | some g =>
      { a with gltf := some { g with
          matrix := mat4scale matrix scale scale scale,
          matrixAutoUpdate := false } }

/-- `Avatar.remove` (src/app.js lines 451-456): if the loaded scene node has
a parent, detach it from that parent (here: drop its id from the scene's
child list), then clear the mesh list. -/
def Avatar.remove (a : Avatar) (sceneChildren : List Nat) : List Nat × Avatar :=
  let children :=
    match a.gltf with
    | some g =>
        if g.sceneId ∈ sceneChildren then sceneChildren.filter (fun c => c ≠ g.sceneId)
        else sceneChildren
    | none => sceneChildren
  (children, { a with morphTargetMeshes := [] })

/-- One frame's detector output (`detectForVideo` result): the
`facialTransformationMatrixes` list and the per-face `faceBlendshapes`
category lists (categoryName, score).  An absent/undefined field and an
empty list are modelled alike as `[]`: the code's guards
(`matrices && matrices.length > 0`) treat them identically. -/
structure DetectionResult where
  facialTransformationMatrixes : List (List ℚ)
  faceBlendshapes : List (List (String × ℚ))
deriving DecidableEq

/-- The coefficient names boosted in `detectFaceLandmarks`
(src/app.js line 487). -/
def gainNames : List String :=
  ["browOuterUpLeft", "browOuterUpRight", "eyeBlinkLeft", "eyeBlinkRight"]

/-- Per-coefficient gain as applied while building the frame's map
(src/app.js lines 486-488): the four boosted names get `score * 1.2`
(= 6/5), every other name keeps its raw score. -/
def gainedScore (name : String) (s : ℚ) : ℚ :=
  if name ∈ gainNames then s * (6 / 5) else s

/-- Lookup in a JS Map of scores. -/
def dictLookupQ : List (String × ℚ) → String → Option ℚ
  | [], _ => none
  | p :: rest, name => if p.1 = name then some p.2 else dictLookupQ rest name

/-- JS `Map.set`: replace in place when the key is present (insertion order
kept), append otherwise. -/
def mapSet (m : List (String × ℚ)) (k : String) (v : ℚ) : List (String × ℚ) :=
  if (dictLookupQ m k).isSome then m.map (fun p => if p.1 = k then (k, v) else p)
  else m ++ [(k, v)]

/-- The map-building loop of `detectFaceLandmarks` (src/app.js lines
484-490): one entry per reported category, with the gain already applied. -/
def buildBlendshapeMap (cats : List (String × ℚ)) : List (String × ℚ) :=
  cats.foldl (fun m c => mapSet m c.1 (gainedScore c.1 c.2)) []

/-- Effect of one successfully returned detection result on the active
avatar (the two guarded blocks of `detectFaceLandmarks`, src/app.js lines
478-491): apply the first transformation matrix if any, then apply the
first face's blendshapes if any. -/
def detectInstance (a : Avatar) (res : DetectionResult) : Avatar :=
  let a1 :=
    match res.facialTransformationMatrixes with
    | m :: _ => a.applyMatrix m 40
    | [] => a
  match res.faceBlendshapes with
  | cats :: _ => a1.updateBlendshapes (buildBlendshapeMap cats)
  | [] => a1

/-- Matrix the loaded root carries right after the success callback's
`position.set(0, 0, -200)` and `scale.setScalar(40)` with `matrixAutoUpdate`
still on (loading glue; no claim depends on its value). -/
def loadedInitMatrix : List ℚ :=
  [40, 0, 0, 0, 0, 40, 0, 0, 0, 0, 40, 0, 0, 0, -200, 1]

/-- Whole-app state the swap and frame paths share: the render scene's child
node ids, every `Avatar` object ever constructed keyed by an instance id
(loader callbacks close over their instance, so superseded objects stay
reachable), the global `avatar` reference (`activeAid`), the globals the
frame guard reads, and the `faceDetectedCount` counter. -/
structure World where
  sceneChildren : List Nat
  instances : List (Nat × Avatar)
  activeAid : Option Nat
  faceLandmarker : Bool
  video : Bool
  trackingActive : Bool
  faceDetectedCount : Nat
deriving DecidableEq

/-- Find an instance by id. -/
def lookupInst : List (Nat × Avatar) → Nat → Option Avatar
  | [], _ => none
  | p :: rest, aid => if p.1 = aid then some p.2 else lookupInst rest aid

/-- Replace the instance stored under an id. -/
def setInst (l : List (Nat × Avatar)) (aid : Nat) (a : Avatar) : List (Nat × Avatar) :=
  l.map fun p => if p.1 = aid then (aid, a) else p

/-- `loadAvatar` (src/app.js lines 548-555): if an avatar is active, call
its `remove()` and null the global reference, then construct the new
`Avatar` (its asynchronous load is the later `loadComplete` event for
`newAid`) and make it active. -/
def loadAvatar (w : World) (newAid : Nat) : World :=
  let w1 :=
    match w.activeAid with
    | none => w
    | some aid =>
      match lookupInst w.instances aid with
      | none => { w with activeAid := none }
      | some a =>
        let pr := a.remove w.sceneChildren
        { w with sceneChildren := pr.1,
                 instances := setInst w.instances aid pr.2,
                 activeAid := none }
  { w1 with instances := (newAid, { gltf := none, morphTargetMeshes := [] }) :: w1.instances,
            activeAid := some newAid }

/-- The GLTFLoader success callback of `Avatar.loadModel` (src/app.js lines
390-401) firing for instance `aid`, delivering a fresh scene node `sid` and
its collected morph meshes: if the instance already held a gltf its mesh
list is reset, then the new gltf is stored, the scene node attached into the
render scene, and `init` collects the meshes.  The callback runs on
whichever instance it closed over, active or not. -/
def loadComplete (w : World) (aid sid : Nat) (meshes : List Mesh) : World :=
  match lookupInst w.instances aid with
  | none => w
  | some a =>
    let a1 := if a.gltf.isSome then { a with morphTargetMeshes := ([] : List Mesh) } else a
    let a2 : Avatar :=
      { gltf := some { sceneId := sid, matrix := loadedInitMatrix, matrixAutoUpdate := true },
        morphTargetMeshes := a1.morphTargetMeshes ++ meshes }
    { w with instances := setInst w.instances aid a2,
             sceneChildren := w.sceneChildren ++ [sid] }

/-- `detectFaceLandmarks` (src/app.js lines 472-496): skip when the detector
is not ready, no video handle exists, or tracking is inactive; otherwise
invoke the detector — a thrown exception is caught and only logged — and on
success apply the result to the active avatar if there is one, bumping
`faceDetectedCount` when a face's blendshapes were returned. -/
def detectFaceLandmarks (w : World) (det : Except String DetectionResult) : World :=
  if !(w.faceLandmarker && w.video && w.trackingActive) then w
  else
    match det with
    | Except.error _ => w
    | Except.ok res =>
      match w.activeAid with
      | none => w
      | some aid =>
        match lookupInst w.instances aid with
        | none => w
        | some a =>
          let w1 := { w with instances := setInst w.instances aid (detectInstance a res) }
          if res.faceBlendshapes ≠ [] then
            { w1 with faceDetectedCount := w1.faceDetectedCount + 1 }
          else w1

/-- `onVideoFrame` (src/app.js lines 498-501): run `detectFaceLandmarks`,
then re-register the per-frame callback if the video handle exists.  The
Bool is whether the next frame's callback was registered. -/
def onVideoFrame (w : World) (det : Except String DetectionResult) : World × Bool :=
  let w1 := detectFaceLandmarks w det
  (w1, w1.video)

/-- Concrete loaded avatar used to instantiate the swap-atomicity theorem:
one loaded scene node (id 100) and one mesh exposing `jawOpen`. -/
def c3ExampleAvatar : Avatar :=
  { gltf := some { sceneId := 100, matrix := mat4id, matrixAutoUpdate := false },
    morphTargetMeshes := [{ morphTargetDictionary := [("jawOpen", 0)],
                            morphTargetInfluences := [0] }] }

/-- Concrete app state with `c3ExampleAvatar` active as instance 0. -/
def c3ExampleWorld : World :=
  { sceneChildren := [100], instances := [(0, c3ExampleAvatar)], activeAid := some 0,
    faceLandmarker := true, video := true, trackingActive := true,
    faceDetectedCount := 0 }

/-! ## Helper lemmas -/

theorem writeShapes_of_unresolved (dict : List (String × Nat)) (infl : List ℚ)
    (report : List (String × ℚ)) (h : ∀ p ∈ report, dictLookup dict p.1 = none) :
    writeShapes dict infl report = infl := by
  induction report generalizing infl with
  | nil => rfl
  | cons p rest ih =>
      have hp : dictLookup dict p.1 = none := h p (by simp)
      simp only [writeShapes, hp]
      exact ih infl fun q hq => h q (by simp [hq])

theorem getD_set_ne (l : List ℚ) (j i : Nat) (v : ℚ) (h : j ≠ i) :
    (l.set j v).getD i 0 = l.getD i 0 := by
  simp [List.getD_eq_getElem?_getD, List.getElem?_set_ne h]

theorem writeShapes_getD_of_not_target (dict : List (String × Nat))
    (report : List (String × ℚ)) (infl : List ℚ) (i : Nat)
    (h : ∀ p ∈ report, dictLookup dict p.1 ≠ some i) :
    (writeShapes dict infl report).getD i 0 = infl.getD i 0 := by
  induction report generalizing infl with
  | nil => rfl
  | cons p rest ih =>
      have hrest : ∀ q ∈ rest, dictLookup dict q.1 ≠ some i :=
        fun q hq => h q (by simp [hq])
      cases hl : dictLookup dict p.1 with
      | none => simp only [writeShapes, hl]; exact ih infl hrest
      | some j =>
          have hji : j ≠ i := fun he => h p (by simp) (by rw [hl, he])
          simp only [writeShapes, hl]
          rw [ih (infl.set j p.2) hrest, getD_set_ne infl j i p.2 hji]

theorem lookupInst_setInst_ne (l : List (Nat × Avatar)) (aid aid2 : Nat) (a : Avatar)
    (h : aid2 ≠ aid) : lookupInst (setInst l aid a) aid2 = lookupInst l aid2 := by
  induction l with
  | nil => rfl
  | cons p rest ih =>
      simp only [setInst, List.map_cons]
      by_cases hp : p.1 = aid
      · rw [if_pos hp]
        simp only [lookupInst]
        rw [if_neg (show ¬ aid = aid2 from fun he => h he.symm),
          if_neg (show ¬ p.1 = aid2 from by rw [hp]; exact fun he => h he.symm)]
        exact ih
      · rw [if_neg hp]
        simp only [lookupInst]
        by_cases hq : p.1 = aid2
        · rw [if_pos hq, if_pos hq]
        · rw [if_neg hq, if_neg hq]
          exact ih

theorem lookupInst_setInst_self (l : List (Nat × Avatar)) (aid : Nat) (a b : Avatar)
    (h : lookupInst l aid = some a) : lookupInst (setInst l aid b) aid = some b := by
  induction l with
  | nil => simp [lookupInst] at h
  | cons p rest ih =>
      by_cases hp : p.1 = aid
      · simp [setInst, lookupInst, hp]
      · simp only [lookupInst, if_neg hp] at h
        simp only [setInst, List.map, if_neg hp, lookupInst, if_neg hp]
        exact ih h

/-! ## Claims -/

/-- C1 (counterexample): the claimed positional fallback does not exist.
For a mesh whose single slot is named `shape0` and a report whose single
coefficient is `jawOpen`, zero coefficients resolve by name; the claim then
requires min(1, 1) = 1 positional write, putting 4/5 into slot 0, but
`updateBlendshapes` leaves the slot at its previous weight 3/10. -/
theorem c1_positional_fallback_counterexample :
    (∀ p ∈ [(("jawOpen" : String), (1 : ℚ))],
        dictLookup [("shape0", 0)] p.1 = none) ∧
    (Mesh.update { morphTargetDictionary := [("shape0", 0)],
                   morphTargetInfluences := [(0 : ℚ)] }
        [("jawOpen", (1 : ℚ))]).morphTargetInfluences = [(0 : ℚ)] ∧
    ¬ (Mesh.update { morphTargetDictionary := [("shape0", 0)],
                     morphTargetInfluences := [(0 : ℚ)] }
        [("jawOpen", (1 : ℚ))]).morphTargetInfluences = [(1 : ℚ)] := by
  decide

/-- C1 (amended): when zero of a frame's coefficients resolve by name for a
mesh, `updateBlendshapes` writes nothing at all to that mesh — there is no
positional fallback, and every morph-target slot keeps its previous
weight. -/
theorem c1_zero_resolved_writes_nothing (m : Mesh) (report : List (String × ℚ))
    (h : ∀ p ∈ report, dictLookup m.morphTargetDictionary p.1 = none) :
    Mesh.update m report = m := by
  unfold Mesh.update
  rw [writeShapes_of_unresolved m.morphTargetDictionary m.morphTargetInfluences report h]

/-- Witness for the amended C1 at the counterexample's input. -/
theorem c1_zero_resolved_writes_nothing_witness :
    Mesh.update { morphTargetDictionary := [("shape0", 0)],
                  morphTargetInfluences := [(0 : ℚ)] }
        [("jawOpen", (1 : ℚ))]
      = { morphTargetDictionary := [("shape0", 0)],
          morphTargetInfluences := [(0 : ℚ)] } :=
  c1_zero_resolved_writes_nothing _ _ (by decide)

/-- C2: coefficient resolution follows the three-step algorithm.  The
source's resolver is a verbatim dictionary lookup and the source defines no
alias list for any name, so it coincides with the spec's three-step
resolver instantiated at the source's (empty) alias table: a verbatim match
returns its slot, the alias clause is vacuous, and every other name is
unresolved (`none`).  Resolution is a total function into `Option`, so it
never throws. -/
theorem c2_resolution_three_step (dict : List (String × Nat)) (name : String) :
    resolveCoefficient dict name = specResolveCoefficient aliasTable dict name ∧
    resolveCoefficient dict name = dictLookup dict name := by
  refine ⟨?_, rfl⟩
  unfold resolveCoefficient specResolveCoefficient aliasTable
  cases dictLookup dict name with
  | none => simp [firstAliasSlot]
  | some i => rfl

/-- C6: gain is applied exactly once, while the frame's blendshape map is
built, and only through name resolution (the code has no other write path):
each of the four boosted coefficient names is scaled by 6/5 = 1.2, every
other name keeps its raw score, a raw 1/2 for `eyeBlinkLeft` enters the map
as 3/5 = 0.6, and `updateBlendshapes` writes that already-gained value into
the resolved slot unchanged. -/
theorem c6_gain_applied_once (name : String) (s : ℚ) (h : ¬ name ∈ gainNames) :
    gainedScore "eyeBlinkLeft" s = s * (6/5) ∧
    gainedScore "eyeBlinkRight" s = s * (6/5) ∧
    gainedScore "browOuterUpLeft" s = s * (6/5) ∧
    gainedScore "browOuterUpRight" s = s * (6/5) ∧
    gainedScore name s = s ∧
    buildBlendshapeMap [("eyeBlinkLeft", 1/2)] = [("eyeBlinkLeft", (3 : ℚ)/5)] ∧
    (Avatar.updateBlendshapes
        { gltf := none,
          morphTargetMeshes := [{ morphTargetDictionary := [("eyeBlinkLeft", 0)],
                                  morphTargetInfluences := [0] }] }
        (buildBlendshapeMap [("eyeBlinkLeft", 1/2)])).morphTargetMeshes
      = [{ morphTargetDictionary := [("eyeBlinkLeft", 0)],
           morphTargetInfluences := [(3 : ℚ)/5] }] := by
  refine ⟨by simp +decide [gainedScore, gainNames], by simp +decide [gainedScore, gainNames],
    by simp +decide [gainedScore, gainNames], by simp +decide [gainedScore, gainNames],
    by simp [gainedScore, h], ?_, ?_⟩
  · simp +decide [buildBlendshapeMap, mapSet, dictLookupQ, gainedScore, gainNames]
    norm_num
  · simp +decide [buildBlendshapeMap, mapSet, dictLookupQ, gainedScore, gainNames,
      Avatar.updateBlendshapes, Mesh.update, writeShapes, dictLookup]
    norm_num

/-- Witness for C6 at the non-boosted name `jawOpen` with raw score 1/3. -/
theorem c6_gain_applied_once_witness :
    gainedScore "eyeBlinkLeft" (1/3) = (1/3 : ℚ) * (6/5) ∧
    gainedScore "eyeBlinkRight" (1/3) = (1/3 : ℚ) * (6/5) ∧
    gainedScore "browOuterUpLeft" (1/3) = (1/3 : ℚ) * (6/5) ∧
    gainedScore "browOuterUpRight" (1/3) = (1/3 : ℚ) * (6/5) ∧
    gainedScore "jawOpen" (1/3) = (1/3 : ℚ) ∧
    buildBlendshapeMap [("eyeBlinkLeft", 1/2)] = [("eyeBlinkLeft", (3 : ℚ)/5)] ∧
    (Avatar.updateBlendshapes
        { gltf := none,
          morphTargetMeshes := [{ morphTargetDictionary := [("eyeBlinkLeft", 0)],
                                  morphTargetInfluences := [0] }] }
        (buildBlendshapeMap [("eyeBlinkLeft", 1/2)])).morphTargetMeshes
      = [{ morphTargetDictionary := [("eyeBlinkLeft", 0)],
           morphTargetInfluences := [(3 : ℚ)/5] }] :=
  c6_gain_applied_once "jawOpen" (1/3) (by decide)

/-- C10: while the avatar's asynchronous model load has not completed
(`gltf` is null), `applyMatrix` is a no-op: it returns with the instance
unchanged, so pose updates arriving during load are dropped without
mutating any transform and without error (the function is total). -/
theorem c10_applyMatrix_noop_while_loading (matrix : List ℚ) (s : ℚ) (meshes : List Mesh) :
    Avatar.applyMatrix { gltf := none, morphTargetMeshes := meshes } matrix s
      = { gltf := none, morphTargetMeshes := meshes } := rfl

/-- Frame steps are local to the active instance: `detectFaceLandmarks`
leaves every instance other than the one the global avatar reference names
exactly as it was. -/
theorem lookupInst_detect_ne (v : World) (det : Except String DetectionResult) (aid : Nat)
    (hne : v.activeAid ≠ some aid) :
    lookupInst (detectFaceLandmarks v det).instances aid = lookupInst v.instances aid := by
  by_cases hguard : (!(v.faceLandmarker && v.video && v.trackingActive)) = true
  · simp [detectFaceLandmarks, hguard]
  · cases det with
    | error e => simp [detectFaceLandmarks, hguard]
    | ok res =>
        cases hact : v.activeAid with
        | none => simp [detectFaceLandmarks, hguard, hact]
        | some aid2 =>
            have hne2 : aid ≠ aid2 := fun he => hne (by rw [hact, he])
            cases hli : lookupInst v.instances aid2 with
            | none => simp [detectFaceLandmarks, hguard, hact, hli]
            | some a2 =>
                by_cases hbs : res.faceBlendshapes = []
                · simp [detectFaceLandmarks, hguard, hact, hli, hbs,
                    lookupInst_setInst_ne v.instances aid2 aid (detectInstance a2 res) hne2]
                · simp [detectFaceLandmarks, hguard, hact, hli, hbs,
                    lookupInst_setInst_ne v.instances aid2 aid (detectInstance a2 res) hne2]

/-- C3: model swap is atomic per frame.  After `loadAvatar` requests a swap
from the active instance `oldAid` to a fresh instance `newAid`: the new
instance is the active one, the old instance's mesh list has been cleared
and its scene node detached from the render graph, and — since any frame
step mutates at most the instance the active reference names (last
conjunct) — no single frame ever applies mutations to both the old and the
new instance. -/
theorem c3_swap_atomic (w : World) (newAid oldAid : Nat) (a : Avatar)
    (hActive : w.activeAid = some oldAid)
    (hFound : lookupInst w.instances oldAid = some a)
    (hFresh : newAid ≠ oldAid) :
    (loadAvatar w newAid).activeAid = some newAid ∧
    lookupInst (loadAvatar w newAid).instances oldAid
      = some { a with morphTargetMeshes := ([] : List Mesh) } ∧
    (∀ g, a.gltf = some g → g.sceneId ∉ (loadAvatar w newAid).sceneChildren) ∧
    (∀ (v : World) (det : Except String DetectionResult) (aid : Nat),
        v.activeAid ≠ some aid →
        lookupInst (detectFaceLandmarks v det).instances aid = lookupInst v.instances aid) := by
  have hw : loadAvatar w newAid
      = { w with sceneChildren := (a.remove w.sceneChildren).1,
                 instances := (newAid, { gltf := none, morphTargetMeshes := [] })
                   :: setInst w.instances oldAid (a.remove w.sceneChildren).2,
                 activeAid := some newAid } := by
    simp [loadAvatar, hActive, hFound]
  refine ⟨by rw [hw], ?_, ?_, lookupInst_detect_ne⟩
  · rw [hw]
    show (if newAid = oldAid then some _ else
      lookupInst (setInst w.instances oldAid (a.remove w.sceneChildren).2) oldAid) = _
    rw [if_neg hFresh,
      lookupInst_setInst_self w.instances oldAid a (a.remove w.sceneChildren).2 hFound]
    rfl
  · intro g hg
    rw [hw]
    show g.sceneId ∉ (a.remove w.sceneChildren).1
    unfold Avatar.remove
    rw [hg]
    by_cases hmem : g.sceneId ∈ w.sceneChildren
    · simp [hmem]
    · simp [hmem]

/-- Witness for C3: the concrete active loaded instance 0 is swapped for the
fresh instance 1. -/
theorem c3_swap_atomic_witness :
    (loadAvatar c3ExampleWorld 1).activeAid = some 1 ∧
    lookupInst (loadAvatar c3ExampleWorld 1).instances 0
      = some { c3ExampleAvatar with morphTargetMeshes := ([] : List Mesh) } ∧
    (∀ g, c3ExampleAvatar.gltf = some g →
        g.sceneId ∉ (loadAvatar c3ExampleWorld 1).sceneChildren) ∧
    (∀ (v : World) (det : Except String DetectionResult) (aid : Nat),
        v.activeAid ≠ some aid →
        lookupInst (detectFaceLandmarks v det).instances aid = lookupInst v.instances aid) :=
  c3_swap_atomic c3ExampleWorld 1 0 c3ExampleAvatar rfl rfl (by decide)

/-- C4: the code at the claim's failing input.  Instance 0 is requested,
superseded by instance 1 while its load is still in flight, and then its
load completes delivering scene node 100: the superseded instance's loader
callback fires unguarded and attaches the stale scene node into the render
scene (100 ends up among the scene's children, and stays there) even though
the active instance is 1 — the claimed detect-and-discard does not
happen. -/
theorem c4_stale_load_attached :
    (loadComplete (loadAvatar (loadAvatar
        { sceneChildren := [], instances := [], activeAid := none,
          faceLandmarker := true, video := true, trackingActive := true,
          faceDetectedCount := 0 } 0) 1) 0 100 []).activeAid = some 1 ∧
    100 ∈ (loadComplete (loadAvatar (loadAvatar
        { sceneChildren := [], instances := [], activeAid := none,
          faceLandmarker := true, video := true, trackingActive := true,
          faceDetectedCount := 0 } 0) 1) 0 100 []).sceneChildren := by
  decide

/-- C5: a detector invocation that throws on frame K is caught inside
`detectFaceLandmarks` and treated as no detection for that frame — the app
state comes out unchanged — and `onVideoFrame` still re-registers the
per-frame callback, so frame K+1 is processed exactly as it would have been
had frame K never thrown. -/
theorem c5_detector_error_recovery (w : World) (e : String)
    (det2 : Except String DetectionResult) (hv : w.video = true) :
    (onVideoFrame w (Except.error e)).1 = w ∧
    (onVideoFrame w (Except.error e)).2 = true ∧
    onVideoFrame (onVideoFrame w (Except.error e)).1 det2 = onVideoFrame w det2 := by
  have h1 : detectFaceLandmarks w (Except.error e) = w := by
    unfold detectFaceLandmarks
    split <;> rfl
  exact ⟨by simp [onVideoFrame, h1], by simp [onVideoFrame, h1, hv],
    by simp [onVideoFrame, h1]⟩

/-- Witness for C5: the detector throws on a frame of a concrete tracking
state; the next frame sees an empty detection result. -/
theorem c5_detector_error_recovery_witness :
    (onVideoFrame { sceneChildren := [], instances := [], activeAid := none,
                    faceLandmarker := true, video := true, trackingActive := true,
                    faceDetectedCount := 0 } (Except.error "detector failed")).1
      = { sceneChildren := [], instances := [], activeAid := none,
          faceLandmarker := true, video := true, trackingActive := true,
          faceDetectedCount := 0 } ∧
    (onVideoFrame { sceneChildren := [], instances := [], activeAid := none,
                    faceLandmarker := true, video := true, trackingActive := true,
                    faceDetectedCount := 0 } (Except.error "detector failed")).2 = true ∧
    onVideoFrame (onVideoFrame { sceneChildren := [], instances := [], activeAid := none,
                                 faceLandmarker := true, video := true,
                                 trackingActive := true,
                                 faceDetectedCount := 0 } (Except.error "detector failed")).1
        (Except.ok { facialTransformationMatrixes := [], faceBlendshapes := [] })
      = onVideoFrame { sceneChildren := [], instances := [], activeAid := none,
                       faceLandmarker := true, video := true, trackingActive := true,
                       faceDetectedCount := 0 }
          (Except.ok { facialTransformationMatrixes := [], faceBlendshapes := [] }) :=
  c5_detector_error_recovery _ "detector failed"
    (Except.ok { facialTransformationMatrixes := [], faceBlendshapes := [] }) rfl

/-- C7: a detection result whose head transform is absent but which carries
coefficients still applies the coefficients while leaving the root
transform untouched: against an active model exposing `jawOpen`, the result
`{headTransform: absent, coefficients: [("jawOpen", 4/5)]}` sets exactly
that mesh's `jawOpen` slot to 4/5 (no gain: `jawOpen` is not a boosted
name) while the other slot, the root's matrix and its matrixAutoUpdate flag
keep their prior values. -/
theorem c7_absent_transform_retains_pose (m0 : List ℚ) (b : Bool) (w0 w1 : ℚ) :
    lookupInst (detectFaceLandmarks
        { sceneChildren := [7],
          instances := [(0,
            { gltf := some { sceneId := 7, matrix := m0, matrixAutoUpdate := b },
              morphTargetMeshes := [{ morphTargetDictionary :=
                                        [("jawOpen", 0), ("browDownLeft", 1)],
                                      morphTargetInfluences := [w0, w1] }] })],
          activeAid := some 0, faceLandmarker := true, video := true,
          trackingActive := true, faceDetectedCount := 0 }
        (Except.ok { facialTransformationMatrixes := [],
                     faceBlendshapes := [[("jawOpen", (4 : ℚ)/5)]] })).instances 0
      = some { gltf := some { sceneId := 7, matrix := m0, matrixAutoUpdate := b },
               morphTargetMeshes := [{ morphTargetDictionary :=
                                         [("jawOpen", 0), ("browDownLeft", 1)],
                                       morphTargetInfluences := [(4 : ℚ)/5, w1] }] } := by
  rfl

/-- C8: pose composition.  `applyMatrix` on a loaded root with the identity
head transform and scale 40 replaces the root's matrix wholesale with the
reported matrix post-multiplied by the uniform scale and disables
matrixAutoUpdate; the composed matrix equals identity * diag(40, 40, 40, 1)
(scale composed after the reported rotation/translation), i.e. the pure
scale matrix: its scale components are 40, its translation is (0, 0, 0),
and it carries no rotation (zero off-diagonal linear part). -/
theorem c8_pose_composition (sid : Nat) (m0 : List ℚ) (b0 : Bool) (meshes : List Mesh) :
    Avatar.applyMatrix
        { gltf := some { sceneId := sid, matrix := m0, matrixAutoUpdate := b0 },
          morphTargetMeshes := meshes } mat4id 40
      = { gltf := some { sceneId := sid, matrix := mat4scale mat4id 40 40 40,
                         matrixAutoUpdate := false },
          morphTargetMeshes := meshes } ∧
    mat4scale mat4id 40 40 40 = mat4mul mat4id (scaleDiag 40) ∧
    mat4scale mat4id 40 40 40 = scaleDiag 40 ∧
    mat4get (mat4scale mat4id 40 40 40) 0 0 = 40 ∧
    mat4get (mat4scale mat4id 40 40 40) 1 1 = 40 ∧
    mat4get (mat4scale mat4id 40 40 40) 2 2 = 40 ∧
    mat4get (mat4scale mat4id 40 40 40) 0 3 = 0 ∧
    mat4get (mat4scale mat4id 40 40 40) 1 3 = 0 ∧
    mat4get (mat4scale mat4id 40 40 40) 2 3 = 0 ∧
    mat4get (mat4scale mat4id 40 40 40) 1 0 = 0 ∧
    mat4get (mat4scale mat4id 40 40 40) 2 0 = 0 ∧
    mat4get (mat4scale mat4id 40 40 40) 0 1 = 0 ∧
    mat4get (mat4scale mat4id 40 40 40) 2 1 = 0 ∧
    mat4get (mat4scale mat4id 40 40 40) 0 2 = 0 ∧
    mat4get (mat4scale mat4id 40 40 40) 1 2 = 0 ∧
    mat4get (mat4scale mat4id 40 40 40) 3 3 = 1 := by
  have hs : mat4scale mat4id 40 40 40 = scaleDiag 40 := by
    norm_num [mat4scale, mat4id, scaleDiag]
  have hm : mat4mul mat4id (scaleDiag 40) = scaleDiag 40 := by
    norm_num [mat4mul, mat4id, scaleDiag]
  refine ⟨rfl, by rw [hs, hm], hs, ?_, ?_, ?_, ?_, ?_, ?_, ?_, ?_, ?_, ?_, ?_, ?_, ?_⟩
    <;> rw [hs] <;> decide

/-- C9: `updateBlendshapes` changes only the slots whose names appear in
the frame's map.  For any mesh of the avatar and any slot index i that no
reported name resolves to, the weight at i is unchanged after the frame
(stale weights are never zeroed) and the mesh's dictionary is untouched. -/
theorem c9_untouched_slots (a : Avatar) (report : List (String × ℚ)) (k i : Nat)
    (mesh : Mesh) (hm : a.morphTargetMeshes[k]? = some mesh)
    (h : ∀ p ∈ report, dictLookup mesh.morphTargetDictionary p.1 ≠ some i) :
    ∃ mesh2, (a.updateBlendshapes report).morphTargetMeshes[k]? = some mesh2 ∧
      mesh2.morphTargetDictionary = mesh.morphTargetDictionary ∧
      mesh2.morphTargetInfluences.getD i 0 = mesh.morphTargetInfluences.getD i 0 := by
  refine ⟨Mesh.update mesh report, ?_, rfl, ?_⟩
  · simp [Avatar.updateBlendshapes, List.getElem?_map, hm]
  · exact writeShapes_getD_of_not_target mesh.morphTargetDictionary report
      mesh.morphTargetInfluences i h

/-- Witness for C9: a report naming only `jawOpen` (slot 0) leaves slot 1 of
the concrete mesh at its prior weight 5. -/
theorem c9_untouched_slots_witness :
    ∃ mesh2,
      (Avatar.updateBlendshapes
          { gltf := none,
            morphTargetMeshes := [{ morphTargetDictionary :=
                                      [("jawOpen", 0), ("browDownLeft", 1)],
                                    morphTargetInfluences := [(2 : ℚ), 5] }] }
          [("jawOpen", (1 : ℚ))]).morphTargetMeshes[0]? = some mesh2 ∧
      mesh2.morphTargetDictionary
        = ({ morphTargetDictionary := [("jawOpen", 0), ("browDownLeft", 1)],
             morphTargetInfluences := [(2 : ℚ), 5] } : Mesh).morphTargetDictionary ∧
      mesh2.morphTargetInfluences.getD 1 0
        = ({ morphTargetDictionary := [("jawOpen", 0), ("browDownLeft", 1)],
             morphTargetInfluences := [(2 : ℚ), 5] } : Mesh).morphTargetInfluences.getD 1 0 :=
  c9_untouched_slots
    { gltf := none,
      morphTargetMeshes := [{ morphTargetDictionary :=
                                [("jawOpen", 0), ("browDownLeft", 1)],
                              morphTargetInfluences := [(2 : ℚ), 5] }] }
    [("jawOpen", (1 : ℚ))] 0 1
    { morphTargetDictionary := [("jawOpen", 0), ("browDownLeft", 1)],
      morphTargetInfluences := [(2 : ℚ), 5] } rfl (by decide)

end FaceOn
